import Mathlib

/-!
Verification of the vector-tile layer source logic of
`src/core/vectortile/qgsvectortilelayer.cpp` (QGIS).

The file embeds the data-source resolution, source-string round-tripping,
raw-tile fetching and symbology-reading logic of `QgsVectorTileLayer` as
executable Lean definitions and proves properties about them.  External
collaborators (Qt's `QUrl`/`QString`, `QgsDataSourceUri`, the path resolver,
the blocking network client, the MBTiles reader, the tile loader and the
XML DOM) are not part of the source slice; they are modelled from the
specification as abstract parameters or small spec-faithful functions and
are marked as such in their doc comments.
-/

namespace VectorTile

/-- Bool test: is `needle` an initial segment of `hay`? (character lists). -/
def listIsPre : List Char → List Char → Bool
  | [], _ => true
  | _ :: _, [] => false
  | a :: as, b :: bs => a = b && listIsPre as bs

/-- Bool test: does `hay` contain `needle` as a contiguous run? (character lists). -/
def listHasRun : List Char → List Char → Bool
  | needle, [] => needle.isEmpty
  | needle, h :: hs => listIsPre needle (h :: hs) || listHasRun needle hs

/-- Does string `hay` contain string `needle` as a substring? -/
def strContains (hay needle : String) : Bool :=
  listHasRun needle.data hay.data

/-- Modelled from the spec: `QgsVectorTileUtils::checkXYZUrlTemplate` (the URL
template validator, §4.2) is not part of the source slice.  A template is valid
iff it contains the zoom, column and row placeholders. -/
def checkXYZUrlTemplate (url : String) : Bool :=
  strContains url "{z}" && strContains url "{x}" && strContains url "{y}"

/-- Accumulator loop: read decimal digits, failing on any non-digit. -/
def parseDigitsAux : List Char → Nat → Option Nat
  | [], acc => some acc
  | c :: cs, acc =>
    if c.isDigit then parseDigitsAux cs (acc * 10 + (c.toNat - 48)) else none

/-- Parse a non-empty all-digit character list as a natural number. -/
def parseDigits (cs : List Char) : Option Nat :=
  if cs.isEmpty then none else parseDigitsAux cs 0

/-- Modelled from the spec: Qt's `QString::toInt(bool *ok)` is not part of the
source slice.  Returns the parsed integer when the whole string is an optional
sign followed by digits, `none` (ok = false) otherwise. -/
def qtToIntOk (s : String) : Option Int :=
  match s.data with
  | '+' :: rest => (parseDigits rest).map Int.ofNat
  | '-' :: rest => (parseDigits rest).map fun n => -(Int.ofNat n)
  | l => (parseDigits l).map Int.ofNat

/-- Modelled from the spec: Qt's `QString::toInt()` without an ok flag returns
0 when the conversion fails. -/
def qtToInt (s : String) : Int :=
  (qtToIntOk s).getD 0

/-- Modelled from the spec: `QgsDataSourceUri` (external) parses the connection
string into a flat parameter mapping with recognized keys `type`, `url`,
`zmin`, `zmax`, `serviceType`, `referer`, `authcfg`; unknown keys are carried
along unchanged (`extra`).  `none` models an absent parameter; `param` on an
absent key yields the empty string, as Qt does. -/
structure DataSourceUri where
  typ : String
  url : String
  zmin : Option String
  zmax : Option String
  serviceType : Option String
  referer : Option String
  authcfg : Option String
  extra : List (String × String)
  deriving DecidableEq, Repr

/-- Modelled from the spec: the read/write context's path resolver
(`QgsPathResolver`, external).  `writePath` rewrites an absolute path to a
project-relative form for storage; `readPath` resolves it back. -/
structure ReadWriteContext where
  readPath : String → String
  writePath : String → String

/-- Modelled from the spec: `QUrl::isLocalFile` (external) — the URL uses the
`file` scheme, here a literal `file://` head. -/
def isLocalFileUrl (u : String) : Bool :=
  listIsPre "file://".data u.data

/-- Modelled from the spec: `QUrl::toLocalFile` (external) — strip the
`file://` head. -/
def toLocalFile (u : String) : String :=
  ⟨u.data.drop 7⟩

/-- Modelled from the spec: `QUrl::fromLocalFile(p).toString()` (external) —
prepend the `file://` head. -/
def fromLocalFile (p : String) : String :=
  "file://" ++ p

/-- Embedding of `QgsVectorTileLayer::encodedSource` (lines 383–411): for an
`xyz` source with a local-file URL, rewrite the file path through the
resolver's `writePath` and re-wrap it as a file URL; for an `mbtiles` source
rewrite the path directly; otherwise return the source unchanged. -/
def encodedSource (source : DataSourceUri) (context : ReadWriteContext) : DataSourceUri :=
  if source.typ = "xyz" then
    if isLocalFileUrl source.url then
      { source with url := fromLocalFile (context.writePath (toLocalFile source.url)) }
    else source
  else if source.typ = "mbtiles" then
    { source with url := context.writePath source.url }
  else source

/-- Embedding of `QgsVectorTileLayer::decodedSource` (lines 413–442): the
converse of `encodedSource`, resolving stored paths through `readPath`. -/
def decodedSource (source : DataSourceUri) (context : ReadWriteContext) : DataSourceUri :=
  if source.typ = "xyz" then
    if isLocalFileUrl source.url then
      { source with url := fromLocalFile (context.readPath (toLocalFile source.url)) }
    else source
  else if source.typ = "mbtiles" then
    { source with url := context.readPath source.url }
  else source

/-- Modelled from the spec: a parsed ArcGIS service-description document
(`QJsonDocument ... toVariantMap`, external).  `hasErrorKey` records whether
the map contains an `error` key; `tiles` is the `tiles` list as strings;
`maxzoom` is the `maxzoom` value read through `QVariant::toInt` (0 when
absent); `serviceUri` is the slot the code writes the request URI into. -/
structure ArcgisDoc where
  hasErrorKey : Bool
  tiles : List String
  maxzoom : Int
  serviceUri : String
  deriving DecidableEq, Repr

/-- Modelled from the spec: the MBTiles archive reader collaborator
(`QgsMbTiles`, external): `open() -> bool`, `metadataValue(key) -> string`
(Qt-style empty string for a missing key), and the archive's declared extent,
kept here as an opaque tag. -/
structure MbReader where
  openOk : Bool
  metadataValue : String → String
  extentTag : String

/-- The symbolic extent the resolver assigns: either the fixed full
web-mercator bounds (±20037508.3427892 on both axes) or the MBTiles archive's
declared extent reprojected from EPSG:4326 to EPSG:3857 (the reprojection is
an external collaborator, kept symbolic). -/
inductive ExtentSpec where
  | fullWebMercator : ExtentSpec
  | mbtilesReprojected : String → ExtentSpec
  deriving DecidableEq, Repr

/-- The layer's source-resolution member state: `mSourceType`, `mSourcePath`,
`mSourceMinZoom`, `mSourceMaxZoom`, the extent, the CRS set by `setCrs`, and
the cached `mArcgisLayerConfiguration`. -/
structure SourceState where
  sourceType : String
  sourcePath : String
  minZoom : Int
  maxZoom : Int
  extent : Option ExtentSpec
  crs : Option String
  arcgisConfig : Option ArcgisDoc
  deriving DecidableEq, Repr

/-- Modelled from the spec: the external world the resolver consults —
`arcgisFetch uri` is the outcome of the blocking network fetch plus JSON
parse of `uri` (`none` = network/timeout/server error, `some none` = the
reply does not parse, `some (some doc)` = parsed document), and `mbReader
path` is the MBTiles reader opened on `path`. -/
structure Env where
  arcgisFetch : String → Option (Option ArcgisDoc)
  mbReader : String → MbReader

/-- Embedding of `QgsVectorTileLayer::setupArcgisVectorTileServiceConnection`
(lines 119–166), acting on member state `st`: fail on fetch or parse failure;
cache the parsed document; fail if it contains an `error` key; record the
request URI in the cached document; build the tile URL template as
`uri + '/' + tiles[0]`; validate it; set zoom range [0, doc.maxzoom] and the
full web-mercator extent. -/
def setupArcgisVectorTileServiceConnection (st : SourceState) (uri : String)
    (fetched : Option (Option ArcgisDoc)) : Bool × SourceState :=
  match fetched with
  | none => (false, st)
  | some none => (false, st)
  | some (some doc) =>
    let st := { st with arcgisConfig := some doc }
    if doc.hasErrorKey then (false, st)
    else
      let st := { st with
        arcgisConfig := some { doc with serviceUri := uri },
        sourcePath := uri ++ "/" ++ doc.tiles.headD "" }
      if checkXYZUrlTemplate st.sourcePath then
        (true, { st with
          minZoom := 0,
          maxZoom := doc.maxzoom,
          extent := some ExtentSpec.fullWebMercator })
      else (false, st)

/-- Embedding of `QgsVectorTileLayer::loadDataSource` (lines 46–117), acting
on prior member state `st0` with the parsed connection string `s` and the
external world `env`.  Returns the success flag together with the final
member state; on success the CRS is unconditionally set to EPSG:3857. -/
def loadDataSource (st0 : SourceState) (s : DataSourceUri) (env : Env) :
    Bool × SourceState :=
  let st1 := { st0 with sourceType := s.typ, sourcePath := s.url }
  if s.typ = "xyz" ∧ s.serviceType.getD "" = "arcgis" then
    match setupArcgisVectorTileServiceConnection st1 s.url (env.arcgisFetch s.url) with
    | (false, st2) => (false, st2)
    | (true, st2) => (true, { st2 with crs := some "EPSG:3857" })
  else if s.typ = "xyz" then
    if checkXYZUrlTemplate s.url then
      let mn : Int := match s.zmin with
        | some v => qtToInt v
        | none => 0
      let mx : Int := match s.zmax with
        | some v => qtToInt v
        | none => 14
      (true, { st1 with
        minZoom := mn,
        maxZoom := mx,
        extent := some ExtentSpec.fullWebMercator,
        crs := some "EPSG:3857" })
    else (false, st1)
  else if s.typ = "mbtiles" then
    let reader := env.mbReader s.url
    if reader.openOk then
      if reader.metadataValue "format" = "pbf" then
        let st2 := match qtToIntOk (reader.metadataValue "minzoom") with
          | some z => { st1 with minZoom := z }
          | none => st1
        let st3 := match qtToIntOk (reader.metadataValue "maxzoom") with
          | some z => { st2 with maxZoom := z }
          | none => st2
        (true, { st3 with
          extent := some (ExtentSpec.mbtilesReprojected reader.extentTag),
          crs := some "EPSG:3857" })
      else (false, st1)
    else (false, st1)
  else (false, st1)

/-- A tile address in the web-mercator quad-tree pyramid (`QgsTileXYZ`). -/
structure TileXYZ where
  zoomLevel : Int
  column : Int
  row : Int
  deriving DecidableEq, Repr

/-- A rectangular tile range (`QgsTileRange`). -/
structure TileRange where
  startColumn : Int
  endColumn : Int
  startRow : Int
  endRow : Int
  deriving DecidableEq, Repr

/-- A raw tile result (`QgsVectorTileRawData`): the address together with the
payload bytes. -/
structure VectorTileRawData where
  id : TileXYZ
  data : List Nat
  deriving DecidableEq, Repr

/-- Modelled from the spec: the tile-loader collaborator
(`QgsVectorTileLoader::blockingFetchTileRawData`, external): given source
type, source path, the zoom level of the tile matrix, the tile range, the
auth configuration id and the referer header, produce a list of raw tile
results. -/
def TileLoader : Type :=
  String → String → Int → TileRange → String → String → List VectorTileRawData

/-- Embedding of `QgsVectorTileLayer::getRawTile` (lines 504–518): build a
single-tile range for the requested address, fetch through the loader, and
return the first payload, or an empty byte sequence when the loader returned
no results. -/
def getRawTile (s : DataSourceUri) (st : SourceState) (loader : TileLoader)
    (tileID : TileXYZ) : List Nat :=
  let tileRange : TileRange :=
    ⟨tileID.column, tileID.column, tileID.row, tileID.row⟩
  let authcfg := s.authcfg.getD ""
  let referer := s.referer.getD ""
  match loader st.sourceType st.sourcePath tileID.zoomLevel tileRange authcfg referer with
  | [] => []
  | t :: _ => t.data

/-- The renderer hierarchy as visible to this file: the only renderer the
code constructs is the basic one (`QgsVectorTileBasicRenderer`; its style
list is external and elided). -/
inductive Renderer where
  | basic : Renderer
  deriving DecidableEq, Repr

/-- The labeling hierarchy as visible to this file: the only labeling the
code constructs is the basic one (`QgsVectorTileBasicLabeling`). -/
inductive Labeling where
  | basic : Labeling
  deriving DecidableEq, Repr

/-- Modelled from the spec: a DOM element with its `type` attribute (Qt DOM
is external; `r->readXml`/`labeling->readXml` contents are elided). -/
structure DomElem where
  typ : String
  deriving DecidableEq, Repr

/-- Modelled from the spec: the layer node handed to `readSymbology` — the
first child `<renderer>` element and the first child `<labeling>` element,
if present. -/
structure SymNode where
  renderer : Option DomElem
  labeling : Option DomElem
  deriving DecidableEq, Repr

/-- The two style-category flags `readSymbology` tests. -/
structure StyleCategories where
  symbology : Bool
  labeling : Bool
  deriving DecidableEq, Repr

/-- Embedding of `QgsVectorTileLayer::readSymbology` (lines 206–259), acting
on the current renderer `r0` and labeling `l0`: a missing `<renderer>` tag is
a hard error; with the Symbology category, an unknown renderer type is a hard
error, a `basic` one installs a basic renderer; with the Labeling category,
the labeling is first cleared and a `basic` labeling element reinstalls one,
while an unknown labeling type only sets the error message and leaves no
labeling installed — the read still succeeds. -/
def readSymbology (node : SymNode) (cats : StyleCategories)
    (r0 : Option Renderer) (l0 : Option Labeling) :
    Bool × Option Renderer × Option Labeling :=
  match node.renderer with
  | none => (false, r0, l0)
  | some elemRenderer =>
    if cats.symbology ∧ elemRenderer.typ ≠ "basic" then (false, r0, l0)
    else
      let r1 := if cats.symbology then some Renderer.basic else r0
      let l1 :=
        if cats.labeling then
          match node.labeling with
          | none => (none : Option Labeling)
          | some elemLabeling =>
            if elemLabeling.typ = "basic" then some Labeling.basic else none
        else l0
      (true, r1, l1)

/-- The layer object as visible to this file: validity flag, resolved member
state, renderer and labeling. -/
structure Layer where
  valid : Bool
  st : SourceState
  renderer : Option Renderer
  labeling : Option Labeling

/-- Embedding of the constructor `QgsVectorTileLayer::QgsVectorTileLayer`
(lines 33–44): store the data source, set validity from `loadDataSource`,
then unconditionally install a default basic renderer. -/
def mkVectorTileLayer (st0 : SourceState) (s : DataSourceUri) (env : Env) : Layer :=
  let r := loadDataSource st0 s env
  { valid := r.1
    st := r.2
    renderer := some Renderer.basic
    labeling := none }

/-- Member state of a freshly constructed layer object, before any
resolution has run. -/
def initState : SourceState :=
  ⟨"", "", 0, 0, none, none, none⟩

/-- A concrete read/write context whose path resolver is the identity. -/
def ctxId : ReadWriteContext :=
  ⟨fun p => p, fun p => p⟩

/-- A concrete MBTiles reader that fails to open. -/
def mbReaderClosed : MbReader :=
  ⟨false, fun _ => "", ""⟩

/-- A concrete environment where every network fetch fails and every MBTiles
archive fails to open. -/
def envNone : Env :=
  ⟨fun _ => none, fun _ => mbReaderClosed⟩

/-- A concrete MBTiles reader: opens, `format=pbf`, `minzoom=2`,
`maxzoom=10`. -/
def readerPbf : MbReader :=
  ⟨true,
   fun k =>
     if k = "format" then "pbf"
     else if k = "minzoom" then "2"
     else if k = "maxzoom" then "10"
     else "",
   "bounds"⟩

/-- A concrete environment whose MBTiles reader is `readerPbf`. -/
def envPbf : Env :=
  ⟨fun _ => none, fun _ => readerPbf⟩

/-- A concrete MBTiles reader: opens, but `format=raster`. -/
def readerRaster : MbReader :=
  ⟨true, fun k => if k = "format" then "raster" else "", "bounds"⟩

/-- A concrete environment whose MBTiles reader is `readerRaster`. -/
def envRaster : Env :=
  ⟨fun _ => none, fun _ => readerRaster⟩

/-- The fixed well-formed ArcGIS service document of the specification: the
tiles list holds the single template `{z}/{x}/{y}.pbf`, `maxzoom` is 16, and
there is no `error` key. -/
def arcgisDoc16 : ArcgisDoc :=
  ⟨false, ["{z}/{x}/{y}.pbf"], 16, ""⟩

/-- A concrete environment whose every fetch returns `arcgisDoc16`. -/
def envArc16 : Env :=
  ⟨fun _ => some (some arcgisDoc16), fun _ => mbReaderClosed⟩

/-! ## Helper lemmas -/

theorem listIsPre_self_append (p l : List Char) : listIsPre p (p ++ l) = true := by
  induction p with
  | nil => rfl
  | cons a as ih => simp [listIsPre, ih]

theorem listIsPre_exists {p l : List Char} (h : listIsPre p l = true) :
    ∃ t, l = p ++ t := by
  induction p generalizing l with
  | nil => exact ⟨l, rfl⟩
  | cons a as ih =>
    match l with
    | [] => simp [listIsPre] at h
    | b :: bs =>
      simp only [listIsPre, Bool.and_eq_true, decide_eq_true_eq] at h
      obtain ⟨rfl, h2⟩ := h
      obtain ⟨t, rfl⟩ := ih h2
      exact ⟨t, rfl⟩

theorem dropLen_append (l₁ l₂ : List Char) : (l₁ ++ l₂).drop l₁.length = l₂ := by
  induction l₁ with
  | nil => rfl
  | cons a as ih => simp [ih]

theorem toLocalFile_fromLocalFile (p : String) : toLocalFile (fromLocalFile p) = p := by
  have h : (fromLocalFile p).data = "file://".data ++ p.data := String.data_append ..
  have h7 : ("file://".data).length = 7 := rfl
  simp only [toLocalFile, h, ← h7, dropLen_append]

theorem isLocalFileUrl_fromLocalFile (p : String) :
    isLocalFileUrl (fromLocalFile p) = true := by
  have h : (fromLocalFile p).data = "file://".data ++ p.data := String.data_append ..
  simp only [isLocalFileUrl, h, listIsPre_self_append]

theorem fromLocalFile_toLocalFile {u : String} (h : isLocalFileUrl u = true) :
    fromLocalFile (toLocalFile u) = u := by
  obtain ⟨t, ht⟩ := listIsPre_exists h
  have hd : (toLocalFile u).data = t := by
    simp only [toLocalFile, ht]
    have h7 : ("file://".data).length = 7 := rfl
    rw [← h7, dropLen_append]
  apply String.ext
  rw [fromLocalFile, String.data_append, hd, ht]

theorem listHasRun_append (a b n : List Char) (h : listHasRun n b = true) :
    listHasRun n (a ++ b) = true := by
  induction a with
  | nil => simpa using h
  | cons x xs ih => simp [listHasRun, ih]

theorem strContains_append_right (a b n : String) (h : strContains b n = true) :
    strContains (a ++ b) n = true := by
  simp only [strContains, String.data_append]
  exact listHasRun_append a.data b.data n.data h

/-! ## Claims -/

/-- C1: for every connection string `s` whose type is `xyz` with a local-file
URL, or whose type is `mbtiles`, and every resolver context whose `writePath`
undoes `readPath`, encoding the decoded form gives back the original:
`encodedSource (decodedSource s ctx) ctx = s`; moreover non-local `xyz`
sources and unrecognized types pass through both operations unchanged. -/
theorem encodedSource_decodedSource_roundTrip (s : DataSourceUri)
    (ctx : ReadWriteContext)
    (hinv : ∀ p, ctx.writePath (ctx.readPath p) = p) :
    encodedSource (decodedSource s ctx) ctx = s ∧
    (s.typ = "xyz" → isLocalFileUrl s.url = false →
      decodedSource s ctx = s ∧ encodedSource s ctx = s) ∧
    (s.typ ≠ "xyz" → s.typ ≠ "mbtiles" →
      decodedSource s ctx = s ∧ encodedSource s ctx = s) := by
  have hpass : ∀ hx : s.typ ≠ "xyz", ∀ hm : s.typ ≠ "mbtiles",
      decodedSource s ctx = s ∧ encodedSource s ctx = s := by
    intro hx hm
    constructor
    · simp [decodedSource, hx, hm]
    · simp [encodedSource, hx, hm]
  have hnl : ∀ hx : s.typ = "xyz", ∀ hl : isLocalFileUrl s.url = false,
      decodedSource s ctx = s ∧ encodedSource s ctx = s := by
    intro hx hl
    constructor
    · simp [decodedSource, hx, hl]
    · simp [encodedSource, hx, hl]
  refine ⟨?_, hnl, hpass⟩
  by_cases hx : s.typ = "xyz"
  · by_cases hl : isLocalFileUrl s.url
    · have hd : decodedSource s ctx =
          { s with url := fromLocalFile (ctx.readPath (toLocalFile s.url)) } := by
        simp [decodedSource, hx, hl]
      rw [hd]
      have he : encodedSource
          { s with url := fromLocalFile (ctx.readPath (toLocalFile s.url)) } ctx =
          { s with url := fromLocalFile (ctx.writePath (toLocalFile
              (fromLocalFile (ctx.readPath (toLocalFile s.url))))) } := by
        simp [encodedSource, hx, isLocalFileUrl_fromLocalFile]
      rw [he, toLocalFile_fromLocalFile, hinv, fromLocalFile_toLocalFile hl]
    · rw [(hnl hx (by simpa using hl)).1, (hnl hx (by simpa using hl)).2]
  · by_cases hm : s.typ = "mbtiles"
    · have hd : decodedSource s ctx = { s with url := ctx.readPath s.url } := by
        simp [decodedSource, hx, hm]
      have he : encodedSource { s with url := ctx.readPath s.url } ctx =
          { s with url := ctx.writePath (ctx.readPath s.url) } := by
        simp [encodedSource, hx, hm]
      rw [hd, he, hinv]
    · rw [(hpass hx hm).1, (hpass hx hm).2]

/-- Witness for C1: a concrete `mbtiles` connection string round-trips through
the identity resolver context. -/
theorem encodedSource_decodedSource_roundTrip_witness :
    encodedSource (decodedSource
      ⟨"mbtiles", "/data/tiles.mbtiles", none, none, none, none, none, []⟩ ctxId)
      ctxId =
      ⟨"mbtiles", "/data/tiles.mbtiles", none, none, none, none, none, []⟩ :=
  (encodedSource_decodedSource_roundTrip
    ⟨"mbtiles", "/data/tiles.mbtiles", none, none, none, none, none, []⟩ ctxId
    fun _ => rfl).1

/-- C2: for every plain-xyz connection string (type `xyz`, no
`serviceType=arcgis`) whose URL template passes validation, resolution
succeeds; `minZoom` equals the `zmin` parameter's integer value when the
parameter is present and 0 when absent, and `maxZoom` equals the `zmax`
parameter's integer value when present and 14 when absent. -/
theorem loadDataSource_xyz_zoomBounds (st0 : SourceState) (s : DataSourceUri)
    (env : Env) (zi zj : Int)
    (htyp : s.typ = "xyz")
    (hsvc : s.serviceType.getD "" ≠ "arcgis")
    (hurl : checkXYZUrlTemplate s.url = true)
    (hmin : (match s.zmin with
             | some v => qtToIntOk v
             | none => some 0) = some zi)
    (hmax : (match s.zmax with
             | some v => qtToIntOk v
             | none => some 14) = some zj) :
    (loadDataSource st0 s env).1 = true ∧
    (loadDataSource st0 s env).2.minZoom = zi ∧
    (loadDataSource st0 s env).2.maxZoom = zj := by
  have hcond : ¬(s.typ = "xyz" ∧ s.serviceType.getD "" = "arcgis") := by
    intro h
    exact hsvc h.2
  rcases hzmin : s.zmin with _ | v₁ <;> rcases hzmax : s.zmax with _ | v₂ <;>
    rw [hzmin] at hmin <;> rw [hzmax] at hmax <;>
    simp only [Option.some.injEq] at hmin hmax <;>
    simp [loadDataSource, hcond, htyp, hsvc, hurl, hzmin, hzmax, qtToInt, hmin, hmax]

/-- Witness for C2: a concrete xyz connection string with `zmin=2`, `zmax=11`
resolves to a zoom range of exactly [2, 11]. -/
theorem loadDataSource_xyz_zoomBounds_witness :
    (loadDataSource initState
      ⟨"xyz", "{z}{x}{y}", some "2", some "11", none, none, none, []⟩ envNone).1 = true ∧
    (loadDataSource initState
      ⟨"xyz", "{z}{x}{y}", some "2", some "11", none, none, none, []⟩ envNone).2.minZoom = 2 ∧
    (loadDataSource initState
      ⟨"xyz", "{z}{x}{y}", some "2", some "11", none, none, none, []⟩ envNone).2.maxZoom = 11 :=
  loadDataSource_xyz_zoomBounds initState
    ⟨"xyz", "{z}{x}{y}", some "2", some "11", none, none, none, []⟩ envNone 2 11
    rfl (by decide) (by decide) (by decide) (by decide)

/-- C3, counterexample: resolution of the xyz connection string with
`zmin=10`, `zmax=5` succeeds, yet the resolved descriptor has
`minZoom = 10 > 5 = maxZoom` — the claimed invariant `minZoom ≤ maxZoom`
does not hold after every successful resolution. -/
theorem loadDataSource_minZoom_le_maxZoom_cex :
    (loadDataSource initState
      ⟨"xyz", "{z}{x}{y}", some "10", some "5", none, none, none, []⟩ envNone).1 = true ∧
    ¬ ((loadDataSource initState
      ⟨"xyz", "{z}{x}{y}", some "10", some "5", none, none, none, []⟩ envNone).2.minZoom ≤
        (loadDataSource initState
      ⟨"xyz", "{z}{x}{y}", some "10", some "5", none, none, none, []⟩ envNone).2.maxZoom) := by
  decide

/-- C3, amended: after every successful resolution the descriptor satisfies
`minZoom ≤ maxZoom` provided the effective zoom inputs are ordered — for a
plain xyz source the `zmin`/`zmax` parameters (with defaults 0/14 and Qt's
to-int reading), for an ArcGIS source a non-negative document `maxzoom`, and
for an mbtiles source the metadata bounds after their independent fallbacks.
The code itself performs no such validation, so the unconditional invariant
fails (see the counterexample). -/
theorem loadDataSource_minZoom_le_maxZoom (st0 : SourceState) (s : DataSourceUri)
    (env : Env)
    (hsucc : (loadDataSource st0 s env).1 = true)
    (hxyz : s.typ = "xyz" → s.serviceType.getD "" ≠ "arcgis" →
      (match s.zmin with
       | some v => qtToInt v
       | none => 0) ≤
      (match s.zmax with
       | some v => qtToInt v
       | none => 14))
    (harc : ∀ doc, s.typ = "xyz" → s.serviceType.getD "" = "arcgis" →
      env.arcgisFetch s.url = some (some doc) → 0 ≤ doc.maxzoom)
    (hmb : s.typ = "mbtiles" →
      (qtToIntOk ((env.mbReader s.url).metadataValue "minzoom")).getD st0.minZoom ≤
      (qtToIntOk ((env.mbReader s.url).metadataValue "maxzoom")).getD st0.maxZoom) :
    (loadDataSource st0 s env).2.minZoom ≤ (loadDataSource st0 s env).2.maxZoom := by
  by_cases ha : s.typ = "xyz" ∧ s.serviceType.getD "" = "arcgis"
  · rcases hf : env.arcgisFetch s.url with _ | hdoc
    · simp [loadDataSource, ha, setupArcgisVectorTileServiceConnection, hf] at hsucc
    · rcases hdoc with _ | doc
      · simp [loadDataSource, ha, setupArcgisVectorTileServiceConnection, hf] at hsucc
      · by_cases he : doc.hasErrorKey = true
        · simp [loadDataSource, ha, setupArcgisVectorTileServiceConnection, hf, he] at hsucc
        · by_cases hc : checkXYZUrlTemplate (s.url ++ "/" ++ doc.tiles.headD "") = true
          · have hm := harc doc ha.1 ha.2 hf
            rw [List.headD_eq_head?_getD] at hc
            simp [loadDataSource, ha, setupArcgisVectorTileServiceConnection, hf, he, hc]
            exact hm
          · rw [List.headD_eq_head?_getD] at hc
            simp [loadDataSource, ha, setupArcgisVectorTileServiceConnection, hf, he, hc]
              at hsucc
  · by_cases hx : s.typ = "xyz"
    · have hsvc : s.serviceType.getD "" ≠ "arcgis" := fun hh => ha ⟨hx, hh⟩
      by_cases hc : checkXYZUrlTemplate s.url = true
      · have hord := hxyz hx hsvc
        rcases hzmin : s.zmin with _ | v₁ <;> rcases hzmax : s.zmax with _ | v₂ <;>
          simp only [hzmin, hzmax] at hord <;>
          simp [loadDataSource, ha, hx, hsvc, hc, hzmin, hzmax] <;>
          exact hord
      · simp [loadDataSource, ha, hx, hsvc, hc] at hsucc
    · by_cases hm : s.typ = "mbtiles"
      · have hord := hmb hm
        by_cases ho : (env.mbReader s.url).openOk = true
        · by_cases hfm : (env.mbReader s.url).metadataValue "format" = "pbf"
          · rcases hmn : qtToIntOk ((env.mbReader s.url).metadataValue "minzoom")
              with _ | a <;>
            rcases hmx : qtToIntOk ((env.mbReader s.url).metadataValue "maxzoom")
              with _ | b <;>
              simp only [hmn, hmx, Option.getD_some, Option.getD_none] at hord <;>
              simp [loadDataSource, ha, hx, hm, ho, hfm, hmn, hmx] <;>
              exact hord
          · simp [loadDataSource, ha, hx, hm, ho, hfm] at hsucc
        · simp [loadDataSource, ha, hx, hm, ho] at hsucc
      · simp [loadDataSource, ha, hx, hm] at hsucc

/-- Witness for the amended C3: a concrete xyz connection string with ordered
bounds `zmin=2 ≤ zmax=11` resolves with `minZoom ≤ maxZoom`. -/
theorem loadDataSource_minZoom_le_maxZoom_witness :
    (loadDataSource initState
      ⟨"xyz", "{z}{x}{y}", some "2", some "11", none, none, none, []⟩ envNone).2.minZoom ≤
    (loadDataSource initState
      ⟨"xyz", "{z}{x}{y}", some "2", some "11", none, none, none, []⟩ envNone).2.maxZoom :=
  loadDataSource_minZoom_le_maxZoom initState
    ⟨"xyz", "{z}{x}{y}", some "2", some "11", none, none, none, []⟩ envNone
    (by decide) (fun _ _ => by decide)
    (fun doc _ h2 _ => absurd h2 (by decide))
    (fun hmm => absurd hmm (by decide))

/-- C4: for every `mbtiles` connection string whose archive opens
successfully but whose `format` metadata value is not exactly `pbf`,
resolution fails. -/
theorem loadDataSource_mbtilesBadFormat (st0 : SourceState) (s : DataSourceUri)
    (env : Env)
    (htyp : s.typ = "mbtiles")
    (hopen : (env.mbReader s.url).openOk = true)
    (hfmt : (env.mbReader s.url).metadataValue "format" ≠ "pbf") :
    (loadDataSource st0 s env).1 = false := by
  have hx : ¬ s.typ = "xyz" := by
    rw [htyp]
    decide
  simp [loadDataSource, hx, htyp, hopen, hfmt]

/-- Witness for C4: a concrete `mbtiles` connection string over an archive
that opens with `format=raster` fails resolution. -/
theorem loadDataSource_mbtilesBadFormat_witness :
    (loadDataSource initState
      ⟨"mbtiles", "/a.mbtiles", none, none, none, none, none, []⟩ envRaster).1 = false :=
  loadDataSource_mbtilesBadFormat initState
    ⟨"mbtiles", "/a.mbtiles", none, none, none, none, none, []⟩ envRaster
    rfl rfl (by decide)

/-- C8: for every connection string on which resolution succeeds — plain xyz,
ArcGIS or mbtiles — the layer's coordinate reference system is set to
EPSG:3857. -/
theorem loadDataSource_crs3857 (st0 : SourceState) (s : DataSourceUri) (env : Env)
    (hsucc : (loadDataSource st0 s env).1 = true) :
    (loadDataSource st0 s env).2.crs = some "EPSG:3857" := by
  by_cases ha : s.typ = "xyz" ∧ s.serviceType.getD "" = "arcgis"
  · rcases hf : env.arcgisFetch s.url with _ | hdoc
    · simp [loadDataSource, ha, setupArcgisVectorTileServiceConnection, hf] at hsucc
    · rcases hdoc with _ | doc
      · simp [loadDataSource, ha, setupArcgisVectorTileServiceConnection, hf] at hsucc
      · by_cases he : doc.hasErrorKey = true
        · simp [loadDataSource, ha, setupArcgisVectorTileServiceConnection, hf, he] at hsucc
        · by_cases hc : checkXYZUrlTemplate (s.url ++ "/" ++ doc.tiles.headD "") = true
          · rw [List.headD_eq_head?_getD] at hc
            simp [loadDataSource, ha, setupArcgisVectorTileServiceConnection, hf, he, hc]
          · rw [List.headD_eq_head?_getD] at hc
            simp [loadDataSource, ha, setupArcgisVectorTileServiceConnection, hf, he, hc]
              at hsucc
  · by_cases hx : s.typ = "xyz"
    · have hsvc : s.serviceType.getD "" ≠ "arcgis" := fun hh => ha ⟨hx, hh⟩
      by_cases hc : checkXYZUrlTemplate s.url = true
      · simp [loadDataSource, ha, hx, hsvc, hc]
      · simp [loadDataSource, ha, hx, hsvc, hc] at hsucc
    · by_cases hm : s.typ = "mbtiles"
      · by_cases ho : (env.mbReader s.url).openOk = true
        · by_cases hfm : (env.mbReader s.url).metadataValue "format" = "pbf"
          · rcases hmn : qtToIntOk ((env.mbReader s.url).metadataValue "minzoom")
              with _ | a <;>
            rcases hmx : qtToIntOk ((env.mbReader s.url).metadataValue "maxzoom")
              with _ | b <;>
              simp [loadDataSource, ha, hx, hm, ho, hfm, hmn, hmx]
          · simp [loadDataSource, ha, hx, hm, ho, hfm] at hsucc
        · simp [loadDataSource, ha, hx, hm, ho] at hsucc
      · simp [loadDataSource, ha, hx, hm] at hsucc

/-- Witness for C8: the concrete pbf-format mbtiles resolution ends with the
CRS set to EPSG:3857. -/
theorem loadDataSource_crs3857_witness :
    (loadDataSource initState
      ⟨"mbtiles", "/a.mbtiles", none, none, none, none, none, []⟩ envPbf).2.crs =
      some "EPSG:3857" :=
  loadDataSource_crs3857 initState
    ⟨"mbtiles", "/a.mbtiles", none, none, none, none, none, []⟩ envPbf (by decide)

/-- C9: for every mbtiles archive in pbf format, resolution succeeds and takes
`minZoom` from the archive's `minzoom` metadata value and `maxZoom` from its
`maxzoom` value when each parses as an integer, leaving the corresponding
bound at its prior value when that metadata value is absent or non-numeric —
each bound falls back independently (`Option.getD` over the prior state). -/
theorem loadDataSource_mbtilesZoom (st0 : SourceState) (s : DataSourceUri)
    (env : Env)
    (htyp : s.typ = "mbtiles")
    (hopen : (env.mbReader s.url).openOk = true)
    (hfmt : (env.mbReader s.url).metadataValue "format" = "pbf") :
    (loadDataSource st0 s env).1 = true ∧
    (loadDataSource st0 s env).2.minZoom =
      (qtToIntOk ((env.mbReader s.url).metadataValue "minzoom")).getD st0.minZoom ∧
    (loadDataSource st0 s env).2.maxZoom =
      (qtToIntOk ((env.mbReader s.url).metadataValue "maxzoom")).getD st0.maxZoom := by
  have hx : ¬ s.typ = "xyz" := by
    rw [htyp]
    decide
  rcases hmn : qtToIntOk ((env.mbReader s.url).metadataValue "minzoom") with _ | a <;>
  rcases hmx : qtToIntOk ((env.mbReader s.url).metadataValue "maxzoom") with _ | b <;>
    simp [loadDataSource, hx, htyp, hopen, hfmt, hmn, hmx]

/-- Witness for C9: the concrete archive with `minzoom=2`, `maxzoom=10`,
`format=pbf` resolves successfully to the zoom range [2, 10]. -/
theorem loadDataSource_mbtilesZoom_witness :
    (loadDataSource initState
      ⟨"mbtiles", "/a.mbtiles", none, none, none, none, none, []⟩ envPbf).1 = true ∧
    (loadDataSource initState
      ⟨"mbtiles", "/a.mbtiles", none, none, none, none, none, []⟩ envPbf).2.minZoom =
      (qtToIntOk ((envPbf.mbReader "/a.mbtiles").metadataValue "minzoom")).getD
        initState.minZoom ∧
    (loadDataSource initState
      ⟨"mbtiles", "/a.mbtiles", none, none, none, none, none, []⟩ envPbf).2.maxZoom =
      (qtToIntOk ((envPbf.mbReader "/a.mbtiles").metadataValue "maxzoom")).getD
        initState.maxZoom :=
  loadDataSource_mbtilesZoom initState
    ⟨"mbtiles", "/a.mbtiles", none, none, none, none, none, []⟩ envPbf
    rfl rfl rfl

theorem checkXYZ_uriSlashTemplate (a : String) :
    checkXYZUrlTemplate (a ++ "/" ++ "{z}/{x}/{y}.pbf") = true := by
  simp only [checkXYZUrlTemplate, Bool.and_eq_true]
  refine ⟨⟨?_, ?_⟩, ?_⟩ <;>
    exact strContains_append_right _ _ _ (by decide)

/-- C5: for an ArcGIS vector tile service resolution whose fetched service
document parses to tiles `[{z}/{x}/{y}.pbf]` and maxzoom 16, resolution
succeeds with `minZoom = 0`, `maxZoom = 16` and a source path equal to the
service URI concatenated with `/` and the template; resolution fails if the
fetch fails, if the document does not parse, or if it contains an `error`
key. -/
theorem loadDataSource_arcgis (st0 : SourceState) (s : DataSourceUri)
    (htyp : s.typ = "xyz")
    (hsvc : s.serviceType.getD "" = "arcgis") :
    (∀ env : Env, env.arcgisFetch s.url = some (some arcgisDoc16) →
      (loadDataSource st0 s env).1 = true ∧
      (loadDataSource st0 s env).2.minZoom = 0 ∧
      (loadDataSource st0 s env).2.maxZoom = 16 ∧
      (loadDataSource st0 s env).2.sourcePath = s.url ++ "/" ++ "{z}/{x}/{y}.pbf") ∧
    (∀ env : Env, env.arcgisFetch s.url = none →
      (loadDataSource st0 s env).1 = false) ∧
    (∀ env : Env, env.arcgisFetch s.url = some none →
      (loadDataSource st0 s env).1 = false) ∧
    (∀ (env : Env) (doc : ArcgisDoc), env.arcgisFetch s.url = some (some doc) →
      doc.hasErrorKey = true →
      (loadDataSource st0 s env).1 = false) := by
  have ha : s.typ = "xyz" ∧ s.serviceType.getD "" = "arcgis" := ⟨htyp, hsvc⟩
  refine ⟨?_, ?_, ?_, ?_⟩
  · intro env hf
    have hck := checkXYZ_uriSlashTemplate s.url
    simp [loadDataSource, ha, setupArcgisVectorTileServiceConnection, hf,
      arcgisDoc16, hck]
  · intro env hf
    simp [loadDataSource, ha, setupArcgisVectorTileServiceConnection, hf]
  · intro env hf
    simp [loadDataSource, ha, setupArcgisVectorTileServiceConnection, hf]
  · intro env doc hf he
    simp [loadDataSource, ha, setupArcgisVectorTileServiceConnection, hf, he]

/-- Witness for C5: a concrete ArcGIS connection whose fetch yields the fixed
document resolves to zoom range [0, 16] and the concatenated template path. -/
theorem loadDataSource_arcgis_witness :
    (loadDataSource initState
      ⟨"xyz", "http://svc", none, none, some "arcgis", none, none, []⟩ envArc16).1 = true ∧
    (loadDataSource initState
      ⟨"xyz", "http://svc", none, none, some "arcgis", none, none, []⟩ envArc16).2.minZoom = 0 ∧
    (loadDataSource initState
      ⟨"xyz", "http://svc", none, none, some "arcgis", none, none, []⟩ envArc16).2.maxZoom = 16 ∧
    (loadDataSource initState
      ⟨"xyz", "http://svc", none, none, some "arcgis", none, none, []⟩ envArc16).2.sourcePath =
      "http://svc" ++ "/" ++ "{z}/{x}/{y}.pbf" :=
  (loadDataSource_arcgis initState
    ⟨"xyz", "http://svc", none, none, some "arcgis", none, none, []⟩ rfl rfl).1
    envArc16 rfl

/-- C6: `getRawTile` returns an empty byte sequence exactly when the
tile-loader collaborator returns an empty result list, and otherwise returns
the payload of the first result, for every tile address — including zoom
levels outside the resolved range (the function is total, so it can neither
crash nor raise). -/
theorem getRawTile_firstOrEmpty (s : DataSourceUri) (st : SourceState)
    (loader : TileLoader) (tileID : TileXYZ) :
    (loader st.sourceType st.sourcePath tileID.zoomLevel
        ⟨tileID.column, tileID.column, tileID.row, tileID.row⟩
        (s.authcfg.getD "") (s.referer.getD "") = [] →
      getRawTile s st loader tileID = []) ∧
    (∀ (t : VectorTileRawData) (ts : List VectorTileRawData),
      loader st.sourceType st.sourcePath tileID.zoomLevel
        ⟨tileID.column, tileID.column, tileID.row, tileID.row⟩
        (s.authcfg.getD "") (s.referer.getD "") = t :: ts →
      getRawTile s st loader tileID = t.data) := by
  constructor
  · intro h
    simp [getRawTile, h]
  · intro t ts h
    simp [getRawTile, h]

/-- Witness for C6: with a loader that returns no results, a tile address at
zoom 99 (outside any resolved range) yields the empty byte sequence. -/
theorem getRawTile_firstOrEmpty_witness :
    getRawTile ⟨"xyz", "{z}{x}{y}", none, none, none, none, none, []⟩ initState
      (fun _ _ _ _ _ _ => []) ⟨99, 0, 0⟩ = [] :=
  (getRawTile_firstOrEmpty ⟨"xyz", "{z}{x}{y}", none, none, none, none, none, []⟩
    initState (fun _ _ _ _ _ _ => []) ⟨99, 0, 0⟩).1 rfl

/-- C7: when reading persisted symbology with both style categories enabled,
an unrecognized renderer type (anything other than `basic`) makes the read
fail, whereas an unrecognized labeling type is ignored — the read still
succeeds and the layer ends up with no labeling installed. -/
theorem readSymbology_unknownTypes (node : SymNode) (cats : StyleCategories)
    (r0 : Option Renderer) (l0 : Option Labeling)
    (hsym : cats.symbology = true) (hlab : cats.labeling = true) :
    (∀ er : DomElem, node.renderer = some er → er.typ ≠ "basic" →
      (readSymbology node cats r0 l0).1 = false) ∧
    (∀ er el : DomElem, node.renderer = some er → er.typ = "basic" →
      node.labeling = some el → el.typ ≠ "basic" →
      (readSymbology node cats r0 l0).1 = true ∧
      (readSymbology node cats r0 l0).2.2 = none) := by
  constructor
  · intro er hr hner
    simp [readSymbology, hr, hsym, hner]
  · intro er el hr hber hl hnel
    simp [readSymbology, hr, hsym, hlab, hber, hl, hnel]

/-- Witness for C7: a node with renderer type `fancy` fails the read, and a
node with renderer type `basic` but labeling type `fancy` reads successfully
with no labeling installed. -/
theorem readSymbology_unknownTypes_witness :
    (readSymbology ⟨some ⟨"fancy"⟩, none⟩ ⟨true, true⟩ none none).1 = false ∧
    ((readSymbology ⟨some ⟨"basic"⟩, some ⟨"fancy"⟩⟩ ⟨true, true⟩ none none).1 = true ∧
      (readSymbology ⟨some ⟨"basic"⟩, some ⟨"fancy"⟩⟩ ⟨true, true⟩ none none).2.2 = none) :=
  ⟨(readSymbology_unknownTypes ⟨some ⟨"fancy"⟩, none⟩ ⟨true, true⟩ none none rfl rfl).1
      ⟨"fancy"⟩ rfl (by decide),
   (readSymbology_unknownTypes ⟨some ⟨"basic"⟩, some ⟨"fancy"⟩⟩ ⟨true, true⟩ none none
      rfl rfl).2 ⟨"basic"⟩ ⟨"fancy"⟩ rfl rfl rfl (by decide)⟩

/-- C10: after construction from any connection string — including one whose
resolution fails, so the layer is invalid — the layer has a (non-null)
renderer: the constructor unconditionally installs the default basic
renderer after attempting source resolution. -/
theorem mkVectorTileLayer_defaultRenderer (st0 : SourceState) (s : DataSourceUri)
    (env : Env) :
    (mkVectorTileLayer st0 s env).renderer = some Renderer.basic :=
  rfl

end VectorTile

